import Mathlib

/-!
Verification development for the video-ai-streamer server
(`src/server/index.js`, `src/public/transcription.js`).

JavaScript strings are modelled as lists of characters (`JStr`); the
handlers of `src/server/index.js` are modelled as pure functions over
explicit state (the global transcript slot, the scratch directory
contents, the rate-limiter bookkeeping). Every definition mirrors the
corresponding expression of the source file; the doc comment of each
definition names the source lines it embeds.
-/

namespace VideoAI

/-- A JavaScript string, modelled as a list of characters. -/
abbrev JStr := List Char

/-- The newline character used by `split` and `join` in the source. -/
def nl : Char := '\n'

/-- Model of `text.split('\n')` (used at `index.js:205` and `index.js:226`):
splits at every newline, producing one (possibly empty) segment more than
the number of newlines; the empty string splits to one empty segment. -/
def splitLines : JStr → List JStr
  | [] => [[]]
  | c :: cs =>
    if c = nl then [] :: splitLines cs
    else
      match splitLines cs with
      | [] => [[c]]
      | l :: ls => (c :: l) :: ls

/-- Model of `lines.join('\n')` (used at `index.js:210` and `index.js:230`). -/
def joinLines : List JStr → JStr
  | [] => []
  | [l] => l
  | l :: m :: ls => l ++ nl :: joinLines (m :: ls)

/-- Model of `line.startsWith(pat)` for the VTT metadata checks at
`index.js:207-209`. -/
def lineStarts : JStr → JStr → Bool
  | _, [] => true
  | [], _ :: _ => false
  | c :: cs, d :: ds => c = d && lineStarts cs ds

/-- Model of `line.match(/^\d+$/)` being non-null (`index.js:227`): the
whole line is one or more decimal digits. -/
def isIndexLine (l : JStr) : Bool :=
  !l.isEmpty && l.all Char.isDigit

/-- Match exactly `n` decimal digits, returning the rest of the line. -/
def matchDigits : Nat → JStr → Option JStr
  | 0, l => some l
  | _ + 1, [] => none
  | n + 1, c :: cs => if c.isDigit then matchDigits n cs else none

/-- Match a literal character sequence, returning the rest of the line. -/
def matchLit : JStr → JStr → Option JStr
  | [], l => some l
  | _ :: _, [] => none
  | c :: cs, d :: ds => if c = d then matchLit cs ds else none

/-- Match `\d{2}:\d{2}:\d{2},\d{3}`, one clock value of the timestamp
regex at `index.js:228`. -/
def matchClock (l : JStr) : Option JStr :=
  (matchDigits 2 l).bind fun l =>
  (matchLit [':'] l).bind fun l =>
  (matchDigits 2 l).bind fun l =>
  (matchLit [':'] l).bind fun l =>
  (matchDigits 2 l).bind fun l =>
  (matchLit [','] l).bind fun l =>
  matchDigits 3 l

/-- Model of `line.match(/^\d{2}:\d{2}:\d{2},\d{3} --> \d{2}:\d{2}:\d{2},\d{3}$/)`
being non-null (`index.js:228`). -/
def isTimestampLine (l : JStr) : Bool :=
  match (matchClock l).bind fun l =>
        (matchLit " --> ".data l).bind fun l =>
        matchClock l with
  | some [] => true
  | _ => false

/-- Model of `line.trim()` being falsy (`index.js:229`): the line is
empty or consists of whitespace only. -/
def isBlankLine (l : JStr) : Bool :=
  l.all Char.isWhitespace

/-- A line the SRT filter chain of `index.js:226-230` keeps: not a pure
integer index, not a timestamp range, not blank. These are the dialogue
lines. -/
def keepLine (l : JStr) : Bool :=
  !isIndexLine l && !isTimestampLine l && !isBlankLine l

/-- Model of the SRT parsing at `index.js:226-230`: split into lines,
drop index lines, drop timestamp-range lines, drop blank lines, join the
rest with newlines. This is the Transcript Normalizer of the spec. -/
def parseSRT (text : JStr) : JStr :=
  joinLines ((((splitLines text).filter fun l => !isIndexLine l).filter
    fun l => !isTimestampLine l).filter fun l => !isBlankLine l)

/-- A VTT metadata line removed by the conversion at `index.js:205-210`:
starts with `WEBVTT`, `Kind:` or `Language:`. -/
def isVttMeta (l : JStr) : Bool :=
  lineStarts l "WEBVTT".data || lineStarts l "Kind:".data ||
    lineStarts l "Language:".data

/-- Model of the VTT-to-SRT conversion at `index.js:205-210`: split into
lines, drop lines starting with `WEBVTT`, `Kind:`, `Language:`, join the
rest with newlines. -/
def vttToSrt (text : JStr) : JStr :=
  joinLines ((((splitLines text).filter fun l => !lineStarts l "WEBVTT".data).filter
    fun l => !lineStarts l "Kind:".data).filter fun l => !lineStarts l "Language:".data)

/-! Basic facts about `splitLines` and `joinLines`. -/

theorem splitLines_ne_nil (t : JStr) : splitLines t ≠ [] := by
  induction t with
  | nil => simp [splitLines]
  | cons c cs ih =>
    simp only [splitLines]
    split
    · simp
    · split
      · simp
      · simp

theorem splitLines_single (l : JStr) (h : nl ∉ l) : splitLines l = [l] := by
  induction l with
  | nil => rfl
  | cons c cs ih =>
    have hc : ¬ c = nl := fun hc => h (hc ▸ List.mem_cons_self c cs)
    have hcs : nl ∉ cs := fun hm => h (List.mem_cons_of_mem c hm)
    simp [splitLines, hc, ih hcs]

theorem splitLines_append_nl (l t : JStr) (h : nl ∉ l) :
    splitLines (l ++ nl :: t) = l :: splitLines t := by
  induction l with
  | nil => simp [splitLines]
  | cons c cs ih =>
    have hc : ¬ c = nl := fun hc => h (hc ▸ List.mem_cons_self c cs)
    have hcs : nl ∉ cs := fun hm => h (List.mem_cons_of_mem c hm)
    simp [splitLines, hc, ih hcs]

theorem splitLines_joinLines : ∀ ls : List JStr, ls ≠ [] →
    (∀ l ∈ ls, nl ∉ l) → splitLines (joinLines ls) = ls
  | [], hne, _ => absurd rfl hne
  | [l], _, h => splitLines_single l (h l (by simp))
  | l :: m :: rest, _, h => by
    have hrec := splitLines_joinLines (m :: rest) (by simp)
      (fun x hx => h x (List.mem_cons_of_mem l hx))
    have hl : nl ∉ l := h l (List.mem_cons_self l (m :: rest))
    simp only [joinLines]
    rw [splitLines_append_nl l _ hl, hrec]

theorem splitLines_mem_no_nl : ∀ (t : JStr), ∀ l ∈ splitLines t, nl ∉ l := by
  intro t
  induction t with
  | nil =>
    intro l hl
    simp [splitLines] at hl
    simp [hl]
  | cons c cs ih =>
    intro l hl
    by_cases hc : c = nl
    · simp only [splitLines, if_pos hc] at hl
      rcases List.mem_cons.mp hl with h1 | h2
      · simp [h1]
      · exact ih l h2
    · rcases hsc : splitLines cs with _ | ⟨x, xs⟩
      · exact absurd hsc (splitLines_ne_nil cs)
      · simp only [splitLines, if_neg hc, hsc] at hl
        rcases List.mem_cons.mp hl with h1 | h2
        · subst h1
          intro hmem
          rcases List.mem_cons.mp hmem with h | h
          · exact hc h.symm
          · exact ih x (by simp [hsc]) h
        · exact ih l (by simp [hsc, List.mem_cons_of_mem x h2])

theorem filter_chain (ls : List JStr) :
    (((ls.filter fun l => !isIndexLine l).filter fun l => !isTimestampLine l).filter
      fun l => !isBlankLine l) = ls.filter keepLine := by
  induction ls with
  | nil => rfl
  | cons l ls ih =>
    cases h1 : isIndexLine l <;> cases h2 : isTimestampLine l <;> cases h3 : isBlankLine l <;>
      simp [List.filter_cons, keepLine, h1, h2, h3, ih, -List.filter_filter]

theorem vtt_filter_chain (ls : List JStr) :
    (((ls.filter fun l => !lineStarts l "WEBVTT".data).filter
      fun l => !lineStarts l "Kind:".data).filter
      fun l => !lineStarts l "Language:".data) = ls.filter fun l => !isVttMeta l := by
  induction ls with
  | nil => rfl
  | cons l ls ih =>
    cases h1 : lineStarts l "WEBVTT".data <;>
      cases h2 : lineStarts l "Kind:".data <;>
      cases h3 : lineStarts l "Language:".data <;>
      simp [List.filter_cons, isVttMeta, h1, h2, h3, ih, -List.filter_filter]

theorem parseSRT_joinLines (lines : List JStr) (h : ∀ l ∈ lines, nl ∉ l) :
    parseSRT (joinLines lines) = joinLines (lines.filter keepLine) := by
  cases lines with
  | nil => rfl
  | cons l ls =>
    unfold parseSRT
    rw [splitLines_joinLines (l :: ls) (by simp) h, filter_chain]

theorem vttToSrt_joinLines (lines : List JStr) (h : ∀ l ∈ lines, nl ∉ l) :
    vttToSrt (joinLines lines) = joinLines (lines.filter fun l => !isVttMeta l) := by
  cases lines with
  | nil => rfl
  | cons l ls =>
    unfold vttToSrt
    rw [splitLines_joinLines (l :: ls) (by simp) h, vtt_filter_chain]

theorem parseSRT_idem_aux (t : JStr) :
    parseSRT t = joinLines ((splitLines t).filter keepLine) := by
  unfold parseSRT
  rw [filter_chain]

/-! Transcript store and the ingestion handlers. -/

/-- Model of `let globalTranscript = ""` (`index.js:145`): the
process-wide transcript slot starts empty. -/
def initialTranscript : JStr := []

/-- Model of `name.endsWith(pat)` on file names (`index.js:196,203`). -/
def nameEnds (n pat : JStr) : Bool :=
  lineStarts n.reverse pat.reverse

/-- Condition of `files.find(file => file.endsWith('.srt') || file.endsWith('.vtt'))`
at `index.js:196`. -/
def endsWithSrtOrVtt (n : JStr) : Bool :=
  nameEnds n ".srt".data || nameEnds n ".vtt".data

/-- An entry of the scratch (downloads) directory: its file name, its
content, whether `readFileSync` on it succeeds, and whether `unlinkSync`
on it succeeds. -/
structure ScratchFile where
  name : JStr
  content : JStr
  readable : Bool
  deletable : Bool
deriving DecidableEq

/-- Outcome of the `/upload-url` handler after the download tool exits
successfully: the success response `{transcript, success: true}` of
`index.js:245-248`, or the 500 response of `index.js:251-254` caused by a
missing artifact (`index.js:216`) or an unreadable artifact
(`index.js:219-221`). -/
inductive UrlOutcome
  | ok (transcript : JStr)
  | errNoSubtitle
  | errRead
deriving DecidableEq

/-- Model of the `/upload-url` handler continuation after `yt-dlp` exits
successfully (`index.js:193-256`), as a function of the fixed per-request
subtitle path `subtitle_<timestamp>.srt` (`index.js:175`), the scratch
directory contents, and the global transcript slot. It returns the
outcome, the directory contents after the request, and the slot after the
request. Mirrored behavior: the first `.srt`/`.vtt` file is located
(`index.js:196`) and read (`index.js:199`); a `.vtt` name triggers the
VTT conversion (`index.js:203-211`); the SRT filter chain produces the
transcript (`index.js:226-230`); cleanup (`index.js:235-242`) runs only
on this success path, deletes only the fixed path and only if it exists,
and catches a deletion failure without propagating it; a missing artifact
or a failed read rejects the promise, which the outer catch turns into
the 500 response with no cleanup; no branch assigns the global transcript
slot. -/
def uploadUrlAfterExec (fixedPath : JStr) (fs : List ScratchFile) (store : JStr) :
    UrlOutcome × List ScratchFile × JStr :=
  match fs.find? fun f => endsWithSrtOrVtt f.name with
  | none => (UrlOutcome.errNoSubtitle, fs, store)
  | some f =>
    if f.readable then
      let raw := f.content
      let subtitleText := if nameEnds f.name ".vtt".data then vttToSrt raw else raw
      let transcript := parseSRT subtitleText
      let fsAfter :=
        if fs.any fun g => g.name = fixedPath then
          if (fs.filter fun g => g.name = fixedPath).all (fun g => g.deletable) then
            fs.filter fun g => ¬ g.name = fixedPath
          else fs
        else fs
      (UrlOutcome.ok transcript, fsAfter, store)
    else (UrlOutcome.errRead, fs, store)

/-- Model of a JavaScript property access `s.text` where `s` holds a
primitive string: the result is `undefined`, modelled as `none`. Used by
the `/upload-video` response at `index.js:330`, where `transcript` holds
the string `transcriptionResult.data.transcript`. -/
def stringDotText (_s : JStr) : Option JStr := none

/-- Success response of `/upload-video` (`index.js:328-332`); the
`transcript` field is `transcript.text`, an `undefined` value modelled
as `none`. -/
structure UploadVideoResponse where
  success : Bool
  transcript : Option JStr
  timestamp : Nat
deriving DecidableEq

/-- Model of the success path of the `/upload-video` handler
(`index.js:306-332`) from the point where the transcription boundary
answered: `recognized` is the string `transcriptionResult.data.transcript`
(`index.js:314`; the `/transcribe` endpoint always responds with a
string, `index.js:120-122`), `ts` is the `Date.now()` value of
`index.js:280`. The handler stores `recognized` in the global transcript
slot (`index.js:326`) and responds with
`{success: true, transcript: transcript.text, timestamp}`. -/
def uploadVideoSuccess (store : JStr) (recognized : JStr) (ts : Nat) :
    UploadVideoResponse × JStr :=
  let transcript := recognized
  let _ := store
  ({ success := true, transcript := stringDotText transcript, timestamp := ts },
    transcript)

/-! The `/ask` handler: prompt synthesis and answer generation. -/

/-- The apostrophe character, kept out of string literals. -/
def apos : Char := Char.ofNat 39

/-- Text of the prompt template (`index.js:358-364`) before the embedded
transcript. -/
def tmplA : JStr :=
  "\n    You".data ++ [apos] ++
    "re an assistant helping analyze video content. Based on this transcript:\n    \n    \"".data

/-- Text of the prompt template between the transcript and the timestamp. -/
def tmplB : JStr := "\"\n    \n    At around ".data

/-- Text of the prompt template between the timestamp and the question. -/
def tmplC : JStr :=
  " seconds, answer the user".data ++ [apos] ++ "s question: \"".data

/-- Text of the prompt template after the question. -/
def tmplD : JStr := "\"\n    ".data

/-- Model of the template literal at `index.js:358-364`: the transcript
is embedded verbatim, the timestamp in decimal, the question verbatim. -/
def buildPrompt (transcript : JStr) (ts : Nat) (question : JStr) : JStr :=
  tmplA ++ transcript ++ tmplB ++ (Nat.repr ts).data ++ tmplC ++ question ++ tmplD

/-- Model of `answer.trim()` (`index.js:369`): strip leading and trailing
whitespace. -/
def jsTrim (s : JStr) : JStr :=
  ((s.dropWhile Char.isWhitespace).reverse.dropWhile Char.isWhitespace).reverse

/-- Model of `timestamp || Math.floor(Date.now() / 1000)`
(`index.js:356`): a missing or falsy (zero) timestamp field defaults to
the wall-clock time in milliseconds divided by 1000 and floored; `Nat`
division is the floored division. -/
def tsOrNow : Option Nat → Nat → Nat
  | none, nowMs => nowMs / 1000
  | some t, nowMs => if t = 0 then nowMs / 1000 else t

/-- Success response of `/ask` (`index.js:369`). -/
structure AskResponse where
  answer : JStr
deriving DecidableEq

/-- Model of the success path of the `/ask` handler (`index.js:350-369`):
from the store value, the request fields, the current time and the text
generated by the remote model (`response.data[0].generated_text`,
`index.js:67`), compute the prompt sent to the model and the response
`{answer: answer.trim()}`. -/
def askSuccess (store : JStr) (question : JStr) (timestamp : Option Nat) (nowMs : Nat)
    (modelText : JStr) : JStr × AskResponse :=
  let currentTimestamp := tsOrNow timestamp nowMs
  let prompt := buildPrompt store currentTimestamp question
  (prompt, { answer := jsTrim modelText })

/-! The rate limiter protecting `/ask`. -/

/-- Value of `windowMs: 60 * 1000` in the limiter options (`index.js:76`). -/
def windowMs : Nat := 60 * 1000

/-- Value of `max: 3` in the limiter options (`index.js:77`). -/
def maxReq : Nat := 3

/-- Rejection body configured at `index.js:78-81`. -/
structure LimiterMessage where
  error : JStr
  details : JStr
deriving DecidableEq

/-- The configured rejection message of the limiter (`index.js:78-81`). -/
def rateLimitMessage : LimiterMessage :=
  { error := "Too many requests".data
    details := "Please wait 20 seconds between requests".data }

/-- Per-client bookkeeping of the limiter store: how many requests the
current window has seen and when the window expires. -/
structure LimiterEntry where
  count : Nat
  resetTime : Nat
deriving DecidableEq

/-- Modelled boundary: the `express-rate-limit` dependency applied to
`/ask` at `index.js:75-87`. Its source is not part of this repository;
this definition follows the documented behavior of its default in-memory
store, a fixed-window counter per client: the first request of a client
(or the first request at or after the recorded expiry) starts a fresh
60-second window with count 1 and is accepted; a request inside the
window increments the count and is accepted exactly when the incremented
count still is at most `max`. The parameters `windowMs` and `maxReq` are
the ones configured in the source. Returns the new bookkeeping entry and
whether the request is accepted. -/
def limiterStep : Option LimiterEntry → Nat → LimiterEntry × Bool
  | none, now => ({ count := 1, resetTime := now + windowMs }, true)
  | some s, now =>
    if s.resetTime ≤ now then ({ count := 1, resetTime := now + windowMs }, true)
    else ({ count := s.count + 1, resetTime := s.resetTime },
      decide (s.count + 1 ≤ maxReq))

/-- Run the limiter over a list of request times of one client, returning
the acceptance decision of each request. -/
def runLimiter : Option LimiterEntry → List Nat → List Bool
  | _, [] => []
  | st, t :: ts => (limiterStep st t).2 :: runLimiter (some (limiterStep st t).1) ts

/-- Request times of the accepted requests, starting from a given
bookkeeping state. -/
def acceptedTimesFrom : Option LimiterEntry → List Nat → List Nat
  | _, [] => []
  | st, t :: ts =>
    if (limiterStep st t).2 then t :: acceptedTimesFrom (some (limiterStep st t).1) ts
    else acceptedTimesFrom (some (limiterStep st t).1) ts

/-- Request times of the accepted requests of a fresh client. -/
def acceptedTimes (ts : List Nat) : List Nat := acceptedTimesFrom none ts

/-- Number of accepted requests in a decision list. -/
def countAccepted (bs : List Bool) : Nat := (bs.filter id).length

/-! Failure responses of the four endpoints. -/

/-- A structured failure payload: HTTP status, the `error` summary field
and the `details` field; an absent field is `none`. -/
structure ErrorPayload where
  status : Nat
  error : Option JStr
  details : Option JStr
deriving DecidableEq

/-- Request-scoped failures of the `/upload-url` handler. -/
inductive UploadUrlFailure
  | noBody
  | noVideoURL
  | caught (msg : JStr)

/-- Failure responses of `/upload-url`: the validation responses at
`index.js:156` and `index.js:164` and the catch response at
`index.js:251-254`. -/
def uploadUrlFailurePayload : UploadUrlFailure → ErrorPayload
  | UploadUrlFailure.noBody =>
    { status := 400, error := some "No request body received".data, details := none }
  | UploadUrlFailure.noVideoURL =>
    { status := 400, error := some "Video URL is required".data, details := none }
  | UploadUrlFailure.caught msg =>
    { status := 500, error := some "Failed to process video".data, details := some msg }

/-- Request-scoped failures of the `/upload-video` handler. -/
inductive UploadVideoFailure
  | noBody
  | noVideo
  | caught (msg : JStr)

/-- Failure responses of `/upload-video`: the validation responses at
`index.js:262` and `index.js:270` and the catch response at
`index.js:336-339`. -/
def uploadVideoFailurePayload : UploadVideoFailure → ErrorPayload
  | UploadVideoFailure.noBody =>
    { status := 400, error := some "No request body received".data, details := none }
  | UploadVideoFailure.noVideo =>
    { status := 400, error := some "Video is required".data, details := none }
  | UploadVideoFailure.caught msg =>
    { status := 500, error := some "Failed to process video".data, details := some msg }

/-- Request-scoped failures of the `/ask` handler, including a rejection
by the rate limiter. -/
inductive AskFailure
  | noBody
  | noQuestion
  | rateLimited
  | caught (msg : JStr)

/-- Failure responses of `/ask`: the validation responses at
`index.js:347` and `index.js:352`, the limiter rejection configured at
`index.js:77-81`, and the catch response at `index.js:376`. -/
def askFailurePayload : AskFailure → ErrorPayload
  | AskFailure.noBody =>
    { status := 400, error := some "No request body received".data, details := none }
  | AskFailure.noQuestion =>
    { status := 400, error := some "Question is required".data, details := none }
  | AskFailure.rateLimited =>
    { status := 429, error := some rateLimitMessage.error,
      details := some rateLimitMessage.details }
  | AskFailure.caught msg =>
    { status := 500, error := some "Failed to get answer".data, details := some msg }

/-- Request-scoped failures of the `/transcribe` handler. -/
inductive TranscribeFailure
  | noAudio
  | caught (msg : JStr)

/-- Failure responses of `/transcribe`: the validation response at
`index.js:111` and the catch response at `index.js:125-128`. -/
def transcribeFailurePayload : TranscribeFailure → ErrorPayload
  | TranscribeFailure.noAudio =>
    { status := 400, error := some "Audio data is required".data, details := none }
  | TranscribeFailure.caught msg =>
    { status := 500, error := some "Failed to process transcription".data,
      details := some msg }

/-! Concrete sample inputs used by witnesses and counterexamples. -/

/-- Lines of a small SRT sample: two cues with indices, timestamp ranges,
one blank separator and two dialogue lines. -/
def srtSampleLines : List JStr :=
  ["1".data, "00:00:01,000 --> 00:00:04,000".data, "Hello world".data, "".data,
   "2".data, "00:00:05,000 --> 00:00:08,000".data, "Second line".data]

/-- The SRT sample as one string. -/
def srtSample : JStr := joinLines srtSampleLines

/-- Lines of a small VTT sample: the three metadata lines, a timestamp
range and one dialogue line. -/
def vttSampleLines : List JStr :=
  ["WEBVTT".data, "Kind: captions".data, "Language: en".data,
   "00:00:01,000 --> 00:00:04,000".data, "hello from vtt".data]

/-- The VTT sample as one string. -/
def vttSample : JStr := joinLines vttSampleLines

end VideoAI

namespace VideoAI

/-- C3: for every SRT input whose lines are index lines (pure integers),
timestamp-range lines, blank or whitespace-only lines, and dialogue lines
(lines that are none of the former) interleaved, the normalization
transform of `index.js:226-230` outputs exactly the dialogue lines,
joined with newline separators, in their original relative order and
nothing else. -/
theorem srt_normalization_exact (lines : List JStr)
    (hnl : ∀ l ∈ lines, nl ∉ l)
    (_hclass : ∀ l ∈ lines, isIndexLine l = true ∨ isTimestampLine l = true ∨
      isBlankLine l = true ∨ keepLine l = true) :
    parseSRT (joinLines lines) = joinLines (lines.filter keepLine) :=
  parseSRT_joinLines lines hnl

/-- Witness for C3 at the concrete SRT sample. -/
theorem srt_normalization_exact_witness :
    parseSRT (joinLines srtSampleLines) = joinLines (srtSampleLines.filter keepLine) :=
  srt_normalization_exact srtSampleLines (by decide) (by decide)

/-- C8: the normalization transform of `index.js:226-230` is idempotent;
in particular every text that already is an output of the transform is
mapped to itself. -/
theorem parseSRT_idempotent (t : JStr) : parseSRT (parseSRT t) = parseSRT t := by
  have hks : ∀ l ∈ (splitLines t).filter keepLine, nl ∉ l := fun l hl =>
    splitLines_mem_no_nl t l (List.mem_of_mem_filter hl)
  have hkeep : ((splitLines t).filter keepLine).filter keepLine =
      (splitLines t).filter keepLine :=
    List.filter_eq_self.mpr fun a ha => List.of_mem_filter ha
  calc parseSRT (parseSRT t)
      = parseSRT (joinLines ((splitLines t).filter keepLine)) := by
        rw [parseSRT_idem_aux t]
    _ = joinLines (((splitLines t).filter keepLine).filter keepLine) :=
        parseSRT_joinLines _ hks
    _ = joinLines ((splitLines t).filter keepLine) := by rw [hkeep]
    _ = parseSRT t := (parseSRT_idem_aux t).symm

/-- C4: for every VTT input containing a `WEBVTT` header line, a `Kind:`
line and a `Language:` line, the conversion of `index.js:205-210` removes
every line starting with one of the three markers, so none of them is
present when the shared SRT filter chain of `index.js:226-230` runs, and
the composed path equals the SRT filtering of the metadata-free lines. -/
theorem vtt_meta_removed (lines : List JStr)
    (hnl : ∀ l ∈ lines, nl ∉ l)
    (_hweb : ∃ l ∈ lines, lineStarts l "WEBVTT".data = true)
    (_hkind : ∃ l ∈ lines, lineStarts l "Kind:".data = true)
    (_hlang : ∃ l ∈ lines, lineStarts l "Language:".data = true) :
    vttToSrt (joinLines lines) = joinLines (lines.filter fun l => !isVttMeta l) ∧
    (∀ l ∈ lines.filter (fun l => !isVttMeta l), isVttMeta l = false) ∧
    parseSRT (vttToSrt (joinLines lines)) =
      joinLines ((lines.filter fun l => !isVttMeta l).filter keepLine) := by
  have h1 := vttToSrt_joinLines lines hnl
  have hmem : ∀ l ∈ lines.filter (fun l => !isVttMeta l), nl ∉ l := fun l hl =>
    hnl l (List.mem_of_mem_filter hl)
  refine ⟨h1, ?_, ?_⟩
  · intro l hl
    have := List.of_mem_filter hl
    simpa using this
  · rw [h1, parseSRT_joinLines _ hmem]

/-- Witness for C4 at the concrete VTT sample. -/
theorem vtt_meta_removed_witness :
    vttToSrt (joinLines vttSampleLines) =
      joinLines (vttSampleLines.filter fun l => !isVttMeta l) ∧
    (∀ l ∈ vttSampleLines.filter (fun l => !isVttMeta l), isVttMeta l = false) ∧
    parseSRT (vttToSrt (joinLines vttSampleLines)) =
      joinLines ((vttSampleLines.filter fun l => !isVttMeta l).filter keepLine) :=
  vtt_meta_removed vttSampleLines (by decide) (by decide) (by decide) (by decide)

/-- C1 counterexample: a successful `/upload-url` ingestion over a
scratch directory holding the SRT sample produces the non-empty
transcript "Hello world\nSecond line" in its response, yet the transcript
store still holds its old (empty) value afterwards: the subtitle pipeline
never writes the store. -/
theorem uploadUrl_not_written_to_store :
    (uploadUrlAfterExec "subtitle_1.srt".data
      [⟨"subtitle_1.srt".data, srtSample, true, true⟩] initialTranscript).1 =
      UrlOutcome.ok "Hello world\nSecond line".data ∧
    (uploadUrlAfterExec "subtitle_1.srt".data
      [⟨"subtitle_1.srt".data, srtSample, true, true⟩] initialTranscript).2.2 =
      initialTranscript ∧
    "Hello world\nSecond line".data ≠ initialTranscript :=
  ⟨rfl, rfl, by decide⟩

/-- C1 amended: only the `/upload-video` pipeline writes the transcript
store, overwriting it with the raw recognized text (which bypasses the
Normalizer); a successful `/upload-url` ingestion leaves the store
unchanged in every case. -/
theorem transcript_store_single_writer (p : JStr) (fs : List ScratchFile)
    (store rec : JStr) (ts : Nat) :
    (uploadUrlAfterExec p fs store).2.2 = store ∧
    (uploadVideoSuccess store rec ts).2 = rec := by
  constructor
  · unfold uploadUrlAfterExec
    split
    · rfl
    · split <;> rfl
  · rfl

/-- C2 (code bug): on a successful `/upload-video` request the
transcription boundary returns the string
"Transcription completed successfully" (`index.js:120-122`), the handler
stores exactly that string, but the `transcript` field of the response is
`transcript.text` (`index.js:330`), a property access on a primitive
string, hence `undefined` rather than the recognized text. -/
theorem uploadVideo_transcript_field_undefined :
    (uploadVideoSuccess initialTranscript
      "Transcription completed successfully".data 1700000000000).1.transcript = none ∧
    (uploadVideoSuccess initialTranscript
      "Transcription completed successfully".data 1700000000000).1.transcript ≠
      some "Transcription completed successfully".data ∧
    (uploadVideoSuccess initialTranscript
      "Transcription completed successfully".data 1700000000000).2 =
      "Transcription completed successfully".data :=
  ⟨rfl, by decide, rfl⟩

/-- C7 counterexample: first case, the located artifact is unreadable,
the request fails and the artifact is not deleted; second case, the
located artifact is readable but its name differs from the fixed
per-request path `subtitle_<timestamp>.srt`, the request succeeds and the
artifact is still not deleted. -/
theorem artifact_not_always_deleted :
    uploadUrlAfterExec "subtitle_9.srt".data
      [⟨"video.en.srt".data, "x".data, false, true⟩] [] =
      (UrlOutcome.errRead, [⟨"video.en.srt".data, "x".data, false, true⟩], []) ∧
    (uploadUrlAfterExec "subtitle_9.srt".data
      [⟨"clip.en.vtt".data, vttSample, true, true⟩] []).2.1 =
      [⟨"clip.en.vtt".data, vttSample, true, true⟩] ∧
    (uploadUrlAfterExec "subtitle_9.srt".data
      [⟨"clip.en.vtt".data, vttSample, true, true⟩] []).1 =
      UrlOutcome.ok (parseSRT (vttToSrt vttSample)) :=
  ⟨rfl, rfl, rfl⟩

/-- C7 amended: the subtitle-pipeline cleanup runs only on the success
path and attempts to delete only the fixed per-request path: after the
request the scratch directory is unchanged or has exactly the entries
named by the fixed path removed; a failed read or a missing artifact
leaves the directory untouched; entries under any other name always
survive; a deletion failure is swallowed (the directory stays unchanged
and the request still succeeds). -/
theorem cleanup_success_path_only (p : JStr) (fs : List ScratchFile) (store : JStr) :
    ((uploadUrlAfterExec p fs store).2.1 = fs ∨
      (uploadUrlAfterExec p fs store).2.1 = fs.filter fun g => ¬ g.name = p) ∧
    ((uploadUrlAfterExec p fs store).1 = UrlOutcome.errRead →
      (uploadUrlAfterExec p fs store).2.1 = fs) ∧
    ((uploadUrlAfterExec p fs store).1 = UrlOutcome.errNoSubtitle →
      (uploadUrlAfterExec p fs store).2.1 = fs) ∧
    (∀ g ∈ fs, g.name ≠ p → g ∈ (uploadUrlAfterExec p fs store).2.1) := by
  rcases hfind : fs.find? (fun f => endsWithSrtOrVtt f.name) with _ | f
  · have he : uploadUrlAfterExec p fs store = (UrlOutcome.errNoSubtitle, fs, store) := by
      unfold uploadUrlAfterExec
      rw [hfind]
    rw [he]
    exact ⟨Or.inl rfl, fun _ => rfl, fun _ => rfl, fun g hg _ => hg⟩
  · by_cases hr : f.readable = true
    · have he : (uploadUrlAfterExec p fs store).1 =
          UrlOutcome.ok (parseSRT
            (if nameEnds f.name ".vtt".data then vttToSrt f.content else f.content)) := by
        unfold uploadUrlAfterExec
        rw [hfind]
        simp [hr]
      have hfs : (uploadUrlAfterExec p fs store).2.1 = fs ∨
          (uploadUrlAfterExec p fs store).2.1 = fs.filter fun g => ¬ g.name = p := by
        unfold uploadUrlAfterExec
        rw [hfind]
        by_cases hany : (fs.any fun g => g.name = p) = true
        · by_cases hall : ((fs.filter fun g => g.name = p).all fun g => g.deletable) = true
          · right
            simp [hr, hany, hall]
          · left
            simp [hr, hany, hall]
        · left
          simp [hr, hany]
      refine ⟨hfs, ?_, ?_, ?_⟩
      · intro h
        rw [he] at h
        exact UrlOutcome.noConfusion h
      · intro h
        rw [he] at h
        exact UrlOutcome.noConfusion h
      · intro g hg hne
        rcases hfs with h | h
        · rw [h]; exact hg
        · rw [h]
          exact List.mem_filter.mpr ⟨hg, by simpa using hne⟩
    · have he : uploadUrlAfterExec p fs store = (UrlOutcome.errRead, fs, store) := by
        unfold uploadUrlAfterExec
        rw [hfind]
        simp [hr]
      rw [he]
      exact ⟨Or.inl rfl, fun _ => rfl, fun _ => rfl, fun g hg _ => hg⟩

/-- Witness for C7 at a concrete unreadable artifact. -/
theorem cleanup_success_path_only_witness :
    ((uploadUrlAfterExec "subtitle_9.srt".data
        [⟨"video.en.srt".data, "x".data, false, true⟩] []).2.1 =
        [⟨"video.en.srt".data, "x".data, false, true⟩] ∨
      (uploadUrlAfterExec "subtitle_9.srt".data
        [⟨"video.en.srt".data, "x".data, false, true⟩] []).2.1 =
        [⟨"video.en.srt".data, "x".data, false, true⟩].filter
          fun g => ¬ g.name = "subtitle_9.srt".data) ∧
    ((uploadUrlAfterExec "subtitle_9.srt".data
        [⟨"video.en.srt".data, "x".data, false, true⟩] []).1 = UrlOutcome.errRead →
      (uploadUrlAfterExec "subtitle_9.srt".data
        [⟨"video.en.srt".data, "x".data, false, true⟩] []).2.1 =
        [⟨"video.en.srt".data, "x".data, false, true⟩]) ∧
    ((uploadUrlAfterExec "subtitle_9.srt".data
        [⟨"video.en.srt".data, "x".data, false, true⟩] []).1 = UrlOutcome.errNoSubtitle →
      (uploadUrlAfterExec "subtitle_9.srt".data
        [⟨"video.en.srt".data, "x".data, false, true⟩] []).2.1 =
        [⟨"video.en.srt".data, "x".data, false, true⟩]) ∧
    (∀ g ∈ [(⟨"video.en.srt".data, "x".data, false, true⟩ : ScratchFile)],
      g.name ≠ "subtitle_9.srt".data →
      g ∈ (uploadUrlAfterExec "subtitle_9.srt".data
        [⟨"video.en.srt".data, "x".data, false, true⟩] []).2.1) :=
  cleanup_success_path_only "subtitle_9.srt".data
    [⟨"video.en.srt".data, "x".data, false, true⟩] []

/-- C9: calling `/ask` with the store in its initial (never written)
state embeds the empty transcript between the quote marks of the prompt
template, the handler completes, and the response is the text the remote
model produced, trimmed of surrounding whitespace as at `index.js:369`. -/
theorem ask_before_any_transcript (q m : JStr) (ts : Option Nat) (nowMs : Nat) :
    (askSuccess initialTranscript q ts nowMs m).1 =
      tmplA ++ tmplB ++ (Nat.repr (tsOrNow ts nowMs)).data ++ tmplC ++ q ++ tmplD ∧
    (askSuccess initialTranscript q ts nowMs m).2 = { answer := jsTrim m } := by
  constructor
  · simp [askSuccess, buildPrompt, initialTranscript]
  · rfl

/-- C10: an `/ask` request whose timestamp field is omitted or falsy
(zero) has the prompt built with the wall-clock time in epoch
milliseconds divided by 1000 and floored as timestamp anchor. -/
theorem ask_timestamp_default (store q m : JStr) (ts : Option Nat) (nowMs : Nat)
    (h : ts = none ∨ ts = some 0) :
    (askSuccess store q ts nowMs m).1 = buildPrompt store (nowMs / 1000) q := by
  rcases h with h | h <;> subst h <;> simp [askSuccess, tsOrNow]

/-- Witness for C10 at a concrete omitted timestamp. -/
theorem ask_timestamp_default_witness :
    (askSuccess [] "hi".data none 5000 []).1 = buildPrompt [] (5000 / 1000) "hi".data :=
  ask_timestamp_default [] "hi".data [] none 5000 (Or.inl rfl)

/-- Accepted requests of one window are bounded: while the recorded
expiry has not passed, at most `maxReq` minus the current count further
requests are accepted. -/
theorem limiter_window_bound : ∀ (ts : List Nat) (s : LimiterEntry),
    (∀ t ∈ ts, t < s.resetTime) →
    countAccepted (runLimiter (some s) ts) ≤ maxReq - s.count
  | [], _, _ => by simp [runLimiter, countAccepted]
  | t :: ts, s, h => by
    have ht : t < s.resetTime := h t (by simp)
    have hnle : ¬ s.resetTime ≤ t := by omega
    have ih := limiter_window_bound ts
      { count := s.count + 1, resetTime := s.resetTime }
      (fun x hx => h x (List.mem_cons_of_mem t hx))
    by_cases hc : s.count + 1 ≤ maxReq
    · simp only [runLimiter, limiterStep, if_neg hnle, countAccepted,
        List.filter_cons, decide_eq_true hc, id_eq, if_true, List.length_cons] at ih ⊢
      omega
    · simp only [runLimiter, limiterStep, if_neg hnle, countAccepted,
        List.filter_cons, decide_eq_false hc, id_eq, if_false, Bool.false_eq_true,
        ite_false] at ih ⊢
      omega

/-- C5 counterexample: the limiter configured at `index.js:75-87` is a
fixed-window counter, not a sliding one: a fresh client issuing requests
at 0 ms, 58000 ms, 59000 ms, 60000 ms, 61000 ms and 62000 ms has all six
accepted, so the 60-second span from 58000 ms onward contains five
accepted requests, more than the claimed bound of three. -/
theorem rate_limit_not_sliding :
    acceptedTimes [0, 58000, 59000, 60000, 61000, 62000] =
      [0, 58000, 59000, 60000, 61000, 62000] ∧
    ((acceptedTimes [0, 58000, 59000, 60000, 61000, 62000]).filter
      fun t => decide (58000 ≤ t ∧ t < 118000)).length = 5 ∧
    ¬ (((acceptedTimes [0, 58000, 59000, 60000, 61000, 62000]).filter
      fun t => decide (58000 ≤ t ∧ t < 118000)).length ≤ maxReq) := by
  refine ⟨by decide, by decide, by decide⟩

/-- C5 amended: the `/ask` limiter enforces a fixed 60-second window per
client: starting from a fresh client, every batch of requests falling
before the expiry of the window opened by the first request has at most
3 accepted requests in total; inside a window whose count has reached 3
a further request is rejected synchronously with the configured
retry-hint message; a request at or after the expiry is accepted again. -/
theorem rate_limit_fixed_window (t0 : Nat) (rest : List Nat)
    (h : ∀ t ∈ rest, t < t0 + windowMs) :
    countAccepted (runLimiter none (t0 :: rest)) ≤ maxReq ∧
    (∀ (s : LimiterEntry) (now : Nat), maxReq ≤ s.count → now < s.resetTime →
      (limiterStep (some s) now).2 = false) ∧
    (∀ (s : LimiterEntry) (now : Nat), s.resetTime ≤ now →
      (limiterStep (some s) now).2 = true) ∧
    rateLimitMessage.error = "Too many requests".data ∧
    rateLimitMessage.details = "Please wait 20 seconds between requests".data := by
  refine ⟨?_, ?_, ?_, rfl, rfl⟩
  · have hb := limiter_window_bound rest { count := 1, resetTime := t0 + windowMs }
      (by simpa using h)
    simp only [runLimiter, limiterStep, countAccepted, List.filter_cons, id_eq,
      if_true, List.length_cons] at hb ⊢
    simp only [maxReq] at hb ⊢
    omega
  · intro s now hc hn
    have hnle : ¬ s.resetTime ≤ now := by omega
    have : ¬ s.count + 1 ≤ maxReq := by omega
    simp [limiterStep, hnle, this]
  · intro s now hn
    simp [limiterStep, hn]

/-- Witness for C5 at a concrete in-window request list. -/
theorem rate_limit_fixed_window_witness :
    countAccepted (runLimiter none (0 :: [1, 2, 3])) ≤ maxReq ∧
    (∀ (s : LimiterEntry) (now : Nat), maxReq ≤ s.count → now < s.resetTime →
      (limiterStep (some s) now).2 = false) ∧
    (∀ (s : LimiterEntry) (now : Nat), s.resetTime ≤ now →
      (limiterStep (some s) now).2 = true) ∧
    rateLimitMessage.error = "Too many requests".data ∧
    rateLimitMessage.details = "Please wait 20 seconds between requests".data :=
  rate_limit_fixed_window 0 [1, 2, 3] (by decide)

/-- C6 counterexample: the validation failure of `/ask` for a missing
question (`index.js:352`) returns a payload whose `error` field is set
but whose `details` field is absent. -/
theorem ask_validation_lacks_details :
    (askFailurePayload AskFailure.noQuestion).error = some "Question is required".data ∧
    (askFailurePayload AskFailure.noQuestion).details = none :=
  ⟨rfl, rfl⟩

/-- C6 amended: every request-scoped failure response of the four
endpoints carries an `error` summary field; the catch-path responses and
the rate-limiter rejection additionally carry a `details` field; the
validation failures for missing required fields carry only `error` and no
`details`. -/
theorem failure_payload_shape :
    (∀ f, (uploadUrlFailurePayload f).error.isSome = true) ∧
    (∀ f, (uploadVideoFailurePayload f).error.isSome = true) ∧
    (∀ f, (askFailurePayload f).error.isSome = true) ∧
    (∀ f, (transcribeFailurePayload f).error.isSome = true) ∧
    (∀ m, (uploadUrlFailurePayload (UploadUrlFailure.caught m)).details = some m) ∧
    (∀ m, (uploadVideoFailurePayload (UploadVideoFailure.caught m)).details = some m) ∧
    (∀ m, (askFailurePayload (AskFailure.caught m)).details = some m) ∧
    (∀ m, (transcribeFailurePayload (TranscribeFailure.caught m)).details = some m) ∧
    (askFailurePayload AskFailure.rateLimited).details = some rateLimitMessage.details ∧
    (uploadUrlFailurePayload UploadUrlFailure.noBody).details = none ∧
    (uploadUrlFailurePayload UploadUrlFailure.noVideoURL).details = none ∧
    (uploadVideoFailurePayload UploadVideoFailure.noBody).details = none ∧
    (uploadVideoFailurePayload UploadVideoFailure.noVideo).details = none ∧
    (askFailurePayload AskFailure.noBody).details = none ∧
    (askFailurePayload AskFailure.noQuestion).details = none ∧
    (transcribeFailurePayload TranscribeFailure.noAudio).details = none := by
  refine ⟨fun f => ?_, fun f => ?_, fun f => ?_, fun f => ?_,
    fun m => rfl, fun m => rfl, fun m => rfl, fun m => rfl,
    rfl, rfl, rfl, rfl, rfl, rfl, rfl, rfl⟩ <;> cases f <;> rfl

end VideoAI
